import Mathlib

/-!
Shallow embedding of the FusionBrain (Kandinsky) client core of this
repository (`src/kandinsky.py`, `src/main.py`) and proofs about it.

Remote responses are modelled as a small JSON value type; the remote
service is an oracle mapping a job identifier to the JSON body returned
by the status endpoint.  Python exceptions become an explicit error
type; stateful methods become functions from state to (error option,
new state, observable trace).
-/

set_option maxRecDepth 4000

/-- JSON values, as returned by `response.json()` in the source. -/
inductive Json where
  | null : Json
  | bool : Bool → Json
  | num : Int → Json
  | str : String → Json
  | list : List Json → Json
  | dict : List (String × Json) → Json

/-- Python truthiness test (`if not x`) on a JSON value. -/
def Json.falsy : Json → Bool
  | .null => true
  | .bool b => !b
  | .num n => n == 0
  | .str s => s == ""
  | .list xs => xs.isEmpty
  | .dict kvs => kvs.isEmpty

/-- `isinstance(x, dict)`. -/
def Json.isDict : Json → Bool
  | .dict _ => true
  | _ => false

/-- `isinstance(x, list)`. -/
def Json.isList : Json → Bool
  | .list _ => true
  | _ => false

/-- `x.get(key, None)` on a dict (first binding wins, as Python dict keys
are unique); `none` on anything else. -/
def Json.lookup : Json → String → Option Json
  | .dict kvs, k => (kvs.find? (fun p => p.1 == k)).map (fun p => p.2)
  | _, _ => none

/-- Python truthiness of `x.get(key, None)`: `None` is falsy. -/
def falsyOpt : Option Json → Bool
  | none => true
  | some j => j.falsy

/-- Python `==` between a JSON value and a string literal. -/
def jeqStr : Json → String → Bool
  | .str t, s => t == s
  | _, _ => false

/-- Python `==` between `x.get(key, None)` and a string literal. -/
def jeqStrOpt : Option Json → String → Bool
  | none, _ => false
  | some j, s => jeqStr j s

/-- Errors the client can raise: the `APIError` hierarchy of
`src/kandinsky.py` plus the uncaught Python builtin exceptions that some
code paths let escape. `apiError` is the generic
`APIError("Unexpected exception")` catch-all. -/
inductive Err where
  | apiError
  | incorrectUse
  | wrongParameters
  | failedRequest
  | wrongResponseBody
  | imageGeneration
  | typeError
  | attributeError
deriving DecidableEq, Repr

/-- The mutable state of one `API` object: whether `AUTH_HEADERS` is
non-empty, `pending_images` (nullable slots) and `ready_images`.
`pending_images` slots hold whatever JSON value `data.get("uuid")`
returned, so a slot is `Option Json`; `ready_images` holds whatever
`result["files"][0]` was. -/
structure GenState where
  auth : Bool
  pending : List (Option Json)
  ready : List Json

/-- The remote status service: job identifier ↦ JSON body answered by
`GET key/api/v1/pipeline/status/<id>` (the transport layer succeeding). -/
def Service : Type := String → Json

/-- What one iteration of the `checkGeneration` loop body
(`src/kandinsky.py` lines 267-293) does to the slot under scrutiny. -/
inductive StepOutcome where
  | skip : StepOutcome
  | keep : String → StepOutcome
  | resolve : String → Json → StepOutcome
  | abort : Err → List String → StepOutcome

/-- One iteration of the `checkGeneration` loop body on one slot.
`skip`: falsy slot, `continue` without a request. `keep id`: status was
"INITIAL"/"PROCESSING", the slot stays. `resolve id img`: status
"DONE" with a non-empty `result["files"]` list; `img` is its first
element, the slot is nulled. `abort e q`: the body raised `e`, having
queried the identifiers in `q`. A non-string truthy slot raises
`TypeError` on the URL concatenation before any request. -/
def checkStep (svc : Service) (slot : Option Json) : StepOutcome :=
  match slot with
  | none => .skip
  | some rid =>
    if rid.falsy then .skip
    else
      match rid with
      | .str id =>
        let data := svc id
        if !data.isDict then .abort .wrongResponseBody [id]
        else
          let st := data.lookup "status"
          if falsyOpt st then .abort .wrongResponseBody [id]
          else if jeqStrOpt st "INITIAL" || jeqStrOpt st "PROCESSING" then .keep id
          else if jeqStrOpt st "DONE" then
            match data.lookup "result" with
            | none => .abort .wrongResponseBody [id]
            | some rd =>
              if rd.falsy then .abort .wrongResponseBody [id]
              else
                match rd with
                | .dict _ =>
                  match rd.lookup "files" with
                  | some (.list files) =>
                    match files with
                    | [] => .abort .wrongResponseBody [id]
                    | img :: _ => .resolve id img
                  | _ => .abort .wrongResponseBody [id]
                | _ => .abort .attributeError [id]
          else if jeqStrOpt st "FAIL" then .abort .imageGeneration [id]
          else .abort .wrongResponseBody [id]
      | _ => .abort .typeError []

/-- Prepend the effect of one non-aborting step on the loop's running
output (error, slots, appended images, queried identifiers). -/
def consOut (slot : Option Json) (img : Option Json) (qid : Option String)
    (out : Option Err × List (Option Json) × List Json × List String) :
    Option Err × List (Option Json) × List Json × List String :=
  (out.1, slot :: out.2.1, img.toList ++ out.2.2.1, qid.toList ++ out.2.2.2)

/-- The `for index, request_id in enumerate(self.pending_images)` loop of
`checkGeneration`, lines 267-293: returns the raised error (if any), the
slot list as mutated so far, the images appended to `ready_images`, and
the identifiers whose status was queried, in order.  On an abort the
current slot and the ones after it are left untouched. -/
def checkLoop (svc : Service) : List (Option Json) →
    Option Err × List (Option Json) × List Json × List String
  | [] => (none, [], [], [])
  | slot :: rest =>
    match checkStep svc slot with
    | .skip => consOut slot none none (checkLoop svc rest)
    | .keep id => consOut slot none (some id) (checkLoop svc rest)
    | .resolve id img => consOut none (some img) (some id) (checkLoop svc rest)
    | .abort e q => (some e, slot :: rest, [], q)

/-- `API.checkGeneration` (lines 256-294): credential check, the loop,
and — only when no exception was raised — the final compaction
`self.pending_images = list(filter(lambda x: x is not None, ...))`.
Returns (raised error, state after the call, queried identifiers). -/
def checkGeneration (svc : Service) (s : GenState) :
    Option Err × GenState × List String :=
  if !s.auth then (some .incorrectUse, s, [])
  else
    match checkLoop svc s.pending with
    | (some e, p, r, q) => (some e, { s with pending := p, ready := s.ready ++ r }, q)
    | (none, p, r, q) =>
      (none, { s with pending := p.filter (fun x => x.isSome), ready := s.ready ++ r }, q)

/-- `API.getPhotos` (lines 296-305): return `ready_images` and reset it
to the empty list.  Total: it never fails. -/
def getPhotos (s : GenState) : List Json × GenState :=
  (s.ready, { s with ready := [] })

/-- `API.getModel` (lines 184-208), with the transport call's result
abstracted as `resp`: credential check, then the body must be a
non-empty JSON list whose first element is a dict with a truthy `"id"`,
which is returned. -/
def getModel (auth : Bool) (resp : Except Err Json) : Except Err Json :=
  if !auth then .error .incorrectUse
  else
    match resp with
    | .error e => .error e
    | .ok data =>
      match data with
      | .list (model :: _) =>
        if !model.isDict then .error .wrongResponseBody
        else
          match model.lookup "id" with
          | none => .error .wrongResponseBody
          | some mid => if mid.falsy then .error .wrongResponseBody else .ok mid
      | _ => .error .wrongResponseBody

/-- Invocations of the transport layer made by `startGeneration`. -/
inductive NetCall where
  | getPipelines
  | postRun
deriving DecidableEq, Repr

/-- The two transport results `startGeneration` can consume: the answer
to `GET key/api/v1/pipelines` and to `POST key/api/v1/pipeline/run`
(either may itself be an error raised by `_handleRequest`). -/
structure StartWorld where
  modelsResp : Except Err Json
  runResp : Except Err Json

/-- `API.startGeneration` (lines 210-254): credential check, empty
prompt/style check, `getModel` round trip, job submission; the response
must be a dict, its `"uuid"` must be truthy and is appended to
`pending_images`.  Returns (raised error, new state, transport
invocations in order). -/
def startGeneration (w : StartWorld) (prompt style : String) (s : GenState) :
    Option Err × GenState × List NetCall :=
  if !s.auth then (some .incorrectUse, s, [])
  else if prompt == "" || style == "" then (some .wrongParameters, s, [])
  else
    match getModel s.auth w.modelsResp with
    | .error e => (some e, s, [.getPipelines])
    | .ok _ =>
      match w.runResp with
      | .error e => (some e, s, [.getPipelines, .postRun])
      | .ok data =>
        if !data.isDict then (some .wrongResponseBody, s, [.getPipelines, .postRun])
        else
          match data.lookup "uuid" with
          | none => (some .imageGeneration, s, [.getPipelines, .postRun])
          | some rid =>
            if rid.falsy then (some .imageGeneration, s, [.getPipelines, .postRun])
            else (none, { s with pending := s.pending ++ [some rid] },
                  [.getPipelines, .postRun])

/-- What happens underneath one `_handleRequest` call (lines 110-144):
creating the client session raises; the request/read raises
`aiohttp.ClientError` or the body raises `json.JSONDecodeError`
(`response (status) none`); the request completes with a status and a
parsed body; or some other exception is raised. -/
inductive TransportEvent where
  | sessionFail
  | clientError
  | response : Nat → Option Json → TransportEvent
  | otherError

/-- `API._handleRequest` (lines 110-144) as a classifier of the
underlying transport event: result of the call, paired with how many
requests were issued (0 when session creation failed, otherwise 1 —
the layer never retries). Status mismatch raises `FailedRequestError`
and is re-raised as is; `ClientError`/`JSONDecodeError` become
`FailedRequestError`; anything else becomes the generic `APIError`,
as does a failure inside `_getSession` (lines 92-108). -/
def handleRequest (required : Nat) (ev : TransportEvent) : Except Err Json × Nat :=
  match ev with
  | .sessionFail => (.error .apiError, 0)
  | .clientError => (.error .failedRequest, 1)
  | .otherError => (.error .apiError, 1)
  | .response status body =>
    if status != required then (.error .failedRequest, 1)
    else
      match body with
      | none => (.error .failedRequest, 1)
      | some j => (.ok j, 1)

/-- How the polling loop of `executePrompt` (`src/main.py` lines 71-86)
ends: photos delivered, an error propagated out of `checkGeneration`,
or the 15-attempt budget exhausted (the timeout message after the
loop — a normal return, not a raise). -/
inductive PollOutcome where
  | delivered : List Json → PollOutcome
  | errored : Err → PollOutcome
  | timeout

/-- Observable trace of the polling loop: its outcome, the number of
check/collect attempts, the `asyncio.sleep` delays in seconds, and the
number of user-facing progress messages (`getWaitText`). -/
structure PollTrace where
  outcome : PollOutcome
  checks : Nat
  sleeps : List Nat
  progress : Nat

/-- The `for i in range(15)` loop of `executePrompt` (`src/main.py`
lines 72-85), with `fuel` iterations left: run `checkGeneration`
(aborting the loop on error), collect `getPhotos`, return the photos if
any, else sleep 4 seconds, emit one progress message and try again.
`executePrompt` enters with `fuel = 15`. -/
def pollLoop (svc : Service) : Nat → GenState → PollTrace × GenState
  | 0, s => (⟨.timeout, 0, [], 0⟩, s)
  | fuel + 1, s =>
    match checkGeneration svc s with
    | (some e, s1, _) => (⟨.errored e, 1, [], 0⟩, s1)
    | (none, s1, _) =>
      match getPhotos s1 with
      | (res, s2) =>
        if res.isEmpty then
          match pollLoop svc fuel s2 with
          | (t, s3) => (⟨t.outcome, t.checks + 1, 4 :: t.sleeps, t.progress + 1⟩, s3)
        else (⟨.delivered res, 1, [], 0⟩, s2)

/-- Events in the life of one `API` object's transport session, between
construction and scope exit: a `_getSession` call that succeeds in
creating a session when one is needed, a `_getSession` call whose
`aiohttp.ClientSession()` raises (state is left unchanged), and the
environment closing the current session handle from outside. -/
inductive SessOp where
  | getSession
  | getSessionFail
  | externalClose

/-- The session-ownership state of one `API` object (lines 53-108):
`sessionId`/`sessionClosing` mirror `self.session`/`self.session_closing`;
handles are numbered, `fresh` is the next unused number; `closed` lists
handles whose `.closed` is true; `clientClosed` lists the handles the
client itself closed in `__aexit__`; `created` lists the handles the
client created lazily in `_getSession`. -/
structure SessWorld where
  sessionId : Option Nat
  sessionClosing : Bool
  fresh : Nat
  closed : List Nat
  clientClosed : List Nat
  created : List Nat

/-- `API.__init__` (lines 53-67): the session slot holds the externally
supplied handle (or none); `session_closing` starts false. -/
def initClient (ext : Option Nat) : SessWorld :=
  { sessionId := ext
    sessionClosing := false
    fresh := (match ext with | some h => h + 1 | none => 0)
    closed := []
    clientClosed := []
    created := [] }

/-- The creating branch of `_getSession` (lines 102-107): a new session
is stored and `session_closing` is set. -/
def mkNew (w : SessWorld) : SessWorld :=
  { w with
    sessionId := some w.fresh
    sessionClosing := true
    fresh := w.fresh + 1
    created := w.created ++ [w.fresh] }

/-- One session-lifecycle event.  `_getSession` creates a session
exactly when `self.session is None or self.session.closed`. -/
def stepOp (w : SessWorld) : SessOp → SessWorld
  | .getSession =>
    match w.sessionId with
    | none => mkNew w
    | some h => if h ∈ w.closed then mkNew w else w
  | .getSessionFail => w
  | .externalClose =>
    match w.sessionId with
    | some h => { w with closed := h :: w.closed }
    | none => w

/-- Run a sequence of session-lifecycle events. -/
def runOps (ops : List SessOp) (w : SessWorld) : SessWorld :=
  ops.foldl stepOp w

/-- `API.__aexit__` (lines 75-90): regardless of whether an exception is
propagating (the arguments are ignored), close the session iff
`self.session_closing and not self.session.closed`. -/
def aexit (w : SessWorld) (_errExit : Bool) : SessWorld :=
  if w.sessionClosing then
    match w.sessionId with
    | some h =>
      if h ∈ w.closed then w
      else { w with closed := h :: w.closed, clientClosed := h :: w.clientClosed }
    | none => w
  else w

/-- One entry of the comprehension in `API._getStyles` (lines 320-326):
`{"title": elem["titleEn"], "display_name": elem["name"]}`.  A missing
key is a `KeyError`, caught and turned into `WrongResponseBodyError`; a
non-dict element raises an uncaught `TypeError` on subscripting. -/
def styleOfElem (elem : Json) : Except Err (Json × Json) :=
  match elem with
  | .dict _ =>
    match elem.lookup "titleEn", elem.lookup "name" with
    | some t, some n => .ok (t, n)
    | _, _ => .error .wrongResponseBody
  | _ => .error .typeError

/-- The comprehension of `_getStyles`, element by element. -/
def parseStyleList : List Json → Except Err (List (Json × Json))
  | [] => .ok []
  | e :: rest =>
    match styleOfElem e with
    | .error err => .error err
    | .ok p =>
      match parseStyleList rest with
      | .error err => .error err
      | .ok ps => .ok (p :: ps)

/-- `API._getStyles` (lines 307-326) with the transport call's result
abstracted as `resp`: the body must be a non-empty JSON list; each
element yields a (title, display_name) pair. -/
def getStyles (resp : Except Err Json) : Except Err (List (Json × Json)) :=
  match resp with
  | .error e => .error e
  | .ok data =>
    match data with
    | .list (e :: rest) => parseStyleList (e :: rest)
    | _ => .error .wrongResponseBody

/-- `API.getStyleByTitle` (lines 338-358): fetch the styles, scan for
the first entry whose title equals (`==`) the given title, return its
display name; raise `WrongParametersError` when none matches. -/
def getStyleByTitle (resp : Except Err Json) (title : String) : Except Err Json :=
  match getStyles resp with
  | .error e => .error e
  | .ok entries =>
    match entries.find? (fun p => jeqStr p.1 title) with
    | some p => .ok p.2
    | none => .error .wrongParameters

/-! ### Derived notions used to state the claims -/

/-- Did this loop step raise? -/
def isAbort : StepOutcome → Bool
  | .abort _ _ => true
  | _ => false

/-- The slot after one non-aborting loop step: nulled on resolve, kept
otherwise. -/
def stepSlot (svc : Service) (sl : Option Json) : Option Json :=
  match checkStep svc sl with
  | .resolve _ _ => none
  | _ => sl

/-- The images a clean pass appends to `ready_images`, in order. -/
def resolvedImages (svc : Service) (l : List (Option Json)) : List Json :=
  l.filterMap (fun sl =>
    match checkStep svc sl with
    | .resolve _ img => some img
    | _ => none)

/-- The identifiers a clean pass queries, in order. -/
def queriedOf (svc : Service) (l : List (Option Json)) : List String :=
  l.filterMap (fun sl =>
    match checkStep svc sl with
    | .keep id => some id
    | .resolve id _ => some id
    | _ => none)

/-- The response reports a pending-class status ("INITIAL"/"PROCESSING"). -/
def pendingClassB (j : Json) : Bool :=
  j.isDict &&
    (match j.lookup "status" with
     | some (Json.str s) => s == "INITIAL" || s == "PROCESSING"
     | _ => false)

/-- The response reports "DONE" with a result dict holding a non-empty
`files` list. -/
def doneWithImageB (j : Json) : Bool :=
  j.isDict &&
    (match j.lookup "status" with
     | some (Json.str s) => s == "DONE"
     | _ => false) &&
    (match j.lookup "result" with
     | some (Json.dict rkvs) =>
       (match Json.lookup (Json.dict rkvs) "files" with
        | some (Json.list (_ :: _)) => true
        | _ => false)
     | _ => false)

/-- The first image payload of a "DONE" response. -/
def firstImage (j : Json) : Option Json :=
  match j.lookup "result" with
  | some rd =>
    (match rd.lookup "files" with
     | some (Json.list (img :: _)) => some img
     | _ => none)
  | none => none

/-- A slot that one `checkGeneration` pass leaves pending: its job's
status query answers a pending-class status. -/
def slotStillPending (svc : Service) (sl : Option Json) : Bool :=
  match sl with
  | some (Json.str id) => pendingClassB (svc id)
  | _ => false

/-- The image payload a slot contributes to `ready_images`: the first
image of its job's "DONE" response, if that is what the query answers. -/
def slotReadyImage (svc : Service) (sl : Option Json) : Option Json :=
  match sl with
  | some (Json.str id) => if doneWithImageB (svc id) then firstImage (svc id) else none
  | _ => none

/-! ### Structure of the `checkGeneration` loop -/

theorem checkLoop_clean (svc : Service) (l : List (Option Json))
    (H : ∀ sl ∈ l, isAbort (checkStep svc sl) = false) :
    checkLoop svc l = (none, l.map (stepSlot svc), resolvedImages svc l, queriedOf svc l) := by
  induction l with
  | nil => rfl
  | cons slot rest ih =>
    have hslot := H slot (by simp)
    have hrest : ∀ sl ∈ rest, isAbort (checkStep svc sl) = false :=
      fun sl hsl => H sl (by simp [hsl])
    cases hstep : checkStep svc slot with
    | skip =>
      simp [checkLoop, hstep, ih hrest, consOut, stepSlot, resolvedImages, queriedOf]
    | keep id =>
      simp [checkLoop, hstep, ih hrest, consOut, stepSlot, resolvedImages, queriedOf]
    | resolve id img =>
      simp [checkLoop, hstep, ih hrest, consOut, stepSlot, resolvedImages, queriedOf]
    | abort e q => rw [hstep] at hslot; simp [isAbort] at hslot

theorem checkLoop_append (svc : Service) (l1 l2 : List (Option Json))
    (h : (checkLoop svc l1).1 = none) :
    checkLoop svc (l1 ++ l2) =
      ((checkLoop svc l2).1,
       (checkLoop svc l1).2.1 ++ (checkLoop svc l2).2.1,
       (checkLoop svc l1).2.2.1 ++ (checkLoop svc l2).2.2.1,
       (checkLoop svc l1).2.2.2 ++ (checkLoop svc l2).2.2.2) := by
  induction l1 with
  | nil => simp [checkLoop]
  | cons slot rest ih =>
    cases hstep : checkStep svc slot with
    | skip =>
      rw [checkLoop] at h; rw [hstep] at h
      simp only [consOut] at h
      simp [checkLoop, hstep, ih h, consOut]
    | keep id =>
      rw [checkLoop] at h; rw [hstep] at h
      simp only [consOut] at h
      simp [checkLoop, hstep, ih h, consOut]
    | resolve id img =>
      rw [checkLoop] at h; rw [hstep] at h
      simp only [consOut] at h
      simp [checkLoop, hstep, ih h, consOut]
    | abort e q =>
      rw [checkLoop] at h; rw [hstep] at h
      simp at h

/-- A clean prefix, then a slot whose step raises: the loop stops there,
keeping the prefix's mutations — and the raised error — while the
aborting slot and everything after it stay untouched and unqueried. -/
theorem checkLoop_abort (svc : Service) (l1 l2 : List (Option Json))
    (slot : Option Json) (e : Err) (q : List String)
    (H1 : ∀ sl ∈ l1, isAbort (checkStep svc sl) = false)
    (hslot : checkStep svc slot = .abort e q) :
    checkLoop svc (l1 ++ slot :: l2) =
      (some e, l1.map (stepSlot svc) ++ slot :: l2,
       resolvedImages svc l1, queriedOf svc l1 ++ q) := by
  have hclean := checkLoop_clean svc l1 H1
  have happ := checkLoop_append svc l1 (slot :: l2) (by rw [hclean])
  rw [happ, hclean]
  simp [checkLoop, hslot]

/-! ### Per-slot bridges between response shapes and loop steps -/

theorem lookup_dict_ne_nil {rkvs : List (String × Json)} {k : String} {v : Json}
    (h : Json.lookup (Json.dict rkvs) k = some v) : rkvs.isEmpty = false := by
  cases rkvs with
  | nil => simp [Json.lookup] at h
  | cons p rest => rfl

theorem checkStep_keep (svc : Service) (id : String) (hid : id ≠ "")
    (h : pendingClassB (svc id) = true) :
    checkStep svc (some (Json.str id)) = .keep id := by
  unfold pendingClassB at h
  rw [Bool.and_eq_true] at h
  obtain ⟨hdict, hst⟩ := h
  cases hlk : (svc id).lookup "status" with
  | none => rw [hlk] at hst; simp at hst
  | some stj =>
    rw [hlk] at hst
    cases stj with
    | str st =>
      simp only [beq_iff_eq] at hst
      have hfals : (Json.str id).falsy = false := by
        simp [Json.falsy, hid]
      rcases of_decide_eq_true (by simpa using hst) with hs | hs <;> subst hs <;>
        simp [checkStep, hfals, hdict, hlk, falsyOpt, Json.falsy, jeqStrOpt, jeqStr, hid]
    | null => simp at hst
    | bool b => simp at hst
    | num n => simp at hst
    | list xs => simp at hst
    | dict kvs => simp at hst

theorem checkStep_resolve (svc : Service) (id : String) (hid : id ≠ "")
    (h : doneWithImageB (svc id) = true) :
    ∃ img, firstImage (svc id) = some img ∧
      checkStep svc (some (Json.str id)) = .resolve id img := by
  unfold doneWithImageB at h
  rw [Bool.and_eq_true, Bool.and_eq_true] at h
  obtain ⟨⟨hdict, hst⟩, hres⟩ := h
  cases hlk : (svc id).lookup "status" with
  | none => rw [hlk] at hst; simp at hst
  | some stj =>
    rw [hlk] at hst
    cases stj <;> simp at hst
    case str st =>
    subst hst
    cases hlr : (svc id).lookup "result" with
    | none => rw [hlr] at hres; simp at hres
    | some rd =>
      rw [hlr] at hres
      cases rd <;> simp at hres
      case dict rkvs =>
      cases hlf : Json.lookup (Json.dict rkvs) "files" with
      | none => rw [hlf] at hres; simp at hres
      | some fj =>
        rw [hlf] at hres
        cases fj <;> try simp at hres
        case list files =>
        cases files with
        | nil => simp at hres
        | cons img rest =>
          refine ⟨img, ?_, ?_⟩
          · simp [firstImage, hlr, hlf]
          · have hfals : (Json.str id).falsy = false := by simp [Json.falsy, hid]
            have hne : rkvs.isEmpty = false := lookup_dict_ne_nil hlf
            simp [checkStep, hfals, hdict, hlk, falsyOpt, Json.falsy, jeqStrOpt,
              jeqStr, hlr, hne, hlf, hid]

theorem pendingClassB_not_done {j : Json} (h : pendingClassB j = true) :
    doneWithImageB j = false := by
  unfold pendingClassB at h
  unfold doneWithImageB
  rw [Bool.and_eq_true] at h
  obtain ⟨hdict, hst⟩ := h
  cases hlk : j.lookup "status" with
  | none => rw [hlk] at hst; simp at hst
  | some stj =>
    rw [hlk] at hst
    cases stj <;> simp at hst
    case str st =>
    rcases of_decide_eq_true (by simpa using hst) with hs | hs <;> subst hs <;>
      simp [hlk]

/-- A slot holding a non-empty identifier whose status query answers
either a pending-class status or "DONE" with an image either keeps its
place or resolves to its first image. -/
theorem slot_cases (svc : Service) (id : String) (hid : id ≠ "")
    (h : (pendingClassB (svc id) || doneWithImageB (svc id)) = true) :
    (checkStep svc (some (Json.str id)) = .keep id ∧
      slotStillPending svc (some (Json.str id)) = true ∧
      slotReadyImage svc (some (Json.str id)) = none) ∨
    (∃ img, checkStep svc (some (Json.str id)) = .resolve id img ∧
      slotStillPending svc (some (Json.str id)) = false ∧
      slotReadyImage svc (some (Json.str id)) = some img) := by
  rcases Bool.or_eq_true_iff.mp h with hp | hd
  · left
    refine ⟨checkStep_keep svc id hid hp, ?_, ?_⟩
    · simp [slotStillPending, hp]
    · simp [slotReadyImage, pendingClassB_not_done hp]
  · right
    obtain ⟨img, hfi, hcs⟩ := checkStep_resolve svc id hid hd
    have hp : pendingClassB (svc id) = false := by
      cases hp : pendingClassB (svc id) with
      | false => rfl
      | true => rw [pendingClassB_not_done hp] at hd; exact absurd hd (by simp)
    exact ⟨img, hcs, by simp [slotStillPending, hp], by simp [slotReadyImage, hd, hfi]⟩

/-- Pointwise consequences for whole slot lists under the mixed
pending/"DONE" hypothesis: compaction keeps exactly the still-pending
slots, and the appended images are exactly the first images of the
"DONE" jobs, both in original order. -/
theorem mixed_lists (svc : Service) (l : List (Option Json))
    (H : ∀ sl ∈ l, ∃ id, sl = some (Json.str id) ∧ id ≠ "" ∧
      (pendingClassB (svc id) || doneWithImageB (svc id)) = true) :
    (∀ sl ∈ l, isAbort (checkStep svc sl) = false) ∧
    (l.map (stepSlot svc)).filter (fun x => x.isSome) = l.filter (slotStillPending svc) ∧
    resolvedImages svc l = l.filterMap (slotReadyImage svc) := by
  induction l with
  | nil => exact ⟨by simp, rfl, rfl⟩
  | cons slot rest ih =>
    obtain ⟨id, hsl, hid, hpd⟩ := H slot (by simp)
    obtain ⟨hna, hfil, hres⟩ := ih (fun sl hsl => H sl (by simp [hsl]))
    subst hsl
    rcases slot_cases svc id hid hpd with ⟨hk, hsp, hri⟩ | ⟨img, hk, hsp, hri⟩
    · refine ⟨?_, ?_, ?_⟩
      · intro sl hsl
        rcases List.mem_cons.mp hsl with h | h
        · subst h; simp [hk, isAbort]
        · exact hna sl h
      · have hstep : stepSlot svc (some (Json.str id)) = some (Json.str id) := by
          unfold stepSlot; rw [hk]
        simp [hstep, hfil, hsp]
      · unfold resolvedImages
        simp only [List.filterMap_cons, hk, hri]
        exact hres
    · refine ⟨?_, ?_, ?_⟩
      · intro sl hsl
        rcases List.mem_cons.mp hsl with h | h
        · subst h; simp [hk, isAbort]
        · exact hna sl h
      · have hstep : stepSlot svc (some (Json.str id)) = none := by
          unfold stepSlot; rw [hk]
        simp [hstep, hfil, hsp]
      · unfold resolvedImages at hres ⊢
        simp only [List.filterMap_cons, hk, hri]
        rw [hres]

/-- `checkGeneration` on a credentialed state, when the loop raised
nothing. -/
theorem checkGeneration_eq_of_clean (svc : Service) (s : GenState)
    (hauth : s.auth = true) (p : List (Option Json)) (r : List Json) (q : List String)
    (h : checkLoop svc s.pending = (none, p, r, q)) :
    checkGeneration svc s =
      (none, { s with pending := p.filter (fun x => x.isSome), ready := s.ready ++ r }, q) := by
  unfold checkGeneration
  rw [hauth, h]
  rfl

/-- C1: if the service reports every pending job either as a
pending-class status ("INITIAL"/"PROCESSING") or as "DONE" with at
least one image payload, one `checkGeneration` call returns normally,
leaves in `pending_images` exactly the still-processing identifiers in
their original order, and appends to `ready_images` exactly the first
image payload of each "DONE" job, in order. -/
theorem checkGeneration_mixed_statuses (svc : Service) (s : GenState)
    (hauth : s.auth = true)
    (H : ∀ sl ∈ s.pending, ∃ id, sl = some (Json.str id) ∧ id ≠ "" ∧
      (pendingClassB (svc id) || doneWithImageB (svc id)) = true) :
    (checkGeneration svc s).1 = none ∧
    (checkGeneration svc s).2.1.pending = s.pending.filter (slotStillPending svc) ∧
    (checkGeneration svc s).2.1.ready = s.ready ++ s.pending.filterMap (slotReadyImage svc) := by
  obtain ⟨Habort, hfil, hres⟩ := mixed_lists svc s.pending H
  have hclean := checkLoop_clean svc s.pending Habort
  rw [checkGeneration_eq_of_clean svc s hauth _ _ _ hclean]
  exact ⟨rfl, hfil, by rw [hres]⟩

/-- Concrete status service for the C1 witness: "b" is done with one
image, "a" and "c" are still processing. -/
def csvc1 : Service := fun id =>
  if id = "b" then
    Json.dict [("status", Json.str "DONE"),
               ("result", Json.dict [("files", Json.list [Json.str "imgB"])])]
  else if id = "c" then Json.dict [("status", Json.str "INITIAL")]
  else Json.dict [("status", Json.str "PROCESSING")]

/-- Concrete session state for the C1 witness. -/
def cs1 : GenState :=
  ⟨true, [some (Json.str "a"), some (Json.str "b"), some (Json.str "c")],
   [Json.str "old"]⟩

/-- Witness for C1 at a three-job pending collection with a mix of
"PROCESSING", "DONE" and "INITIAL". -/
theorem checkGeneration_mixed_statuses_witness :
    (checkGeneration csvc1 cs1).1 = none ∧
    (checkGeneration csvc1 cs1).2.1.pending = cs1.pending.filter (slotStillPending csvc1) ∧
    (checkGeneration csvc1 cs1).2.1.ready =
      cs1.ready ++ cs1.pending.filterMap (slotReadyImage csvc1) :=
  checkGeneration_mixed_statuses csvc1 cs1 rfl (by
    intro sl hsl
    have hp : cs1.pending =
        [some (Json.str "a"), some (Json.str "b"), some (Json.str "c")] := rfl
    rw [hp] at hsl
    simp only [List.mem_cons, List.not_mem_nil, or_false] at hsl
    rcases hsl with h | h | h
    · exact ⟨"a", by rw [h], by decide, by rfl⟩
    · exact ⟨"b", by rw [h], by decide, by rfl⟩
    · exact ⟨"c", by rw [h], by decide, by rfl⟩)

/-! ### C2: "FAIL" stops the pass at the failing job -/

theorem checkStep_fail (svc : Service) (id : String) (hid : id ≠ "")
    (hdict : (svc id).isDict = true)
    (hst : (svc id).lookup "status" = some (Json.str "FAIL")) :
    checkStep svc (some (Json.str id)) = .abort .imageGeneration [id] := by
  have hfals : (Json.str id).falsy = false := by simp [Json.falsy, hid]
  simp [checkStep, hfals, hdict, hst, falsyOpt, Json.falsy, jeqStrOpt, jeqStr, hid]

/-- `checkGeneration` on a credentialed state whose loop raised `e`. -/
theorem checkGeneration_eq_of_abort (svc : Service) (s : GenState)
    (hauth : s.auth = true) (e : Err) (p : List (Option Json)) (r : List Json)
    (q : List String) (h : checkLoop svc s.pending = (some e, p, r, q)) :
    checkGeneration svc s =
      (some e, { s with pending := p, ready := s.ready ++ r }, q) := by
  unfold checkGeneration
  rw [hauth, h]
  rfl

/-- C2: when a pending job's status query answers "FAIL" and every slot
before it processes without raising, `checkGeneration` raises
`ImageGenerationError` at that job, and the identifiers queried during
the call are exactly those of the preceding slots followed by the
failing job itself — no job after it is queried. -/
theorem checkGeneration_fail_stops (svc : Service) (s : GenState)
    (hauth : s.auth = true) (l1 l2 : List (Option Json)) (fid : String)
    (hfid : fid ≠ "")
    (hpend : s.pending = l1 ++ some (Json.str fid) :: l2)
    (H1 : ∀ sl ∈ l1, isAbort (checkStep svc sl) = false)
    (hdict : (svc fid).isDict = true)
    (hst : (svc fid).lookup "status" = some (Json.str "FAIL")) :
    (checkGeneration svc s).1 = some Err.imageGeneration ∧
    (checkGeneration svc s).2.2 = queriedOf svc l1 ++ [fid] := by
  have hstep := checkStep_fail svc fid hfid hdict hst
  have habort := checkLoop_abort svc l1 l2 (some (Json.str fid))
    Err.imageGeneration [fid] H1 hstep
  have hloop : checkLoop svc s.pending =
      (some Err.imageGeneration, l1.map (stepSlot svc) ++ some (Json.str fid) :: l2,
       resolvedImages svc l1, queriedOf svc l1 ++ [fid]) := by
    rw [hpend]; exact habort
  rw [checkGeneration_eq_of_abort svc s hauth _ _ _ _ hloop]
  exact ⟨rfl, rfl⟩

/-- Concrete status service for the C2 witness: "f" fails, everything
else is processing. -/
def csvc2 : Service := fun id =>
  if id = "f" then Json.dict [("status", Json.str "FAIL")]
  else Json.dict [("status", Json.str "PROCESSING")]

/-- Concrete session state for the C2 witness: a processing job, the
failing job, then another job that must stay unexamined. -/
def cs2 : GenState :=
  ⟨true, [some (Json.str "p1"), some (Json.str "f"), some (Json.str "p2")], []⟩

/-- Witness for C2: the call raises `ImageGenerationError` and queries
only "p1" and "f" — never "p2". -/
theorem checkGeneration_fail_stops_witness :
    (checkGeneration csvc2 cs2).1 = some Err.imageGeneration ∧
    (checkGeneration csvc2 cs2).2.2 = queriedOf csvc2 [some (Json.str "p1")] ++ ["f"] :=
  checkGeneration_fail_stops csvc2 cs2 rfl [some (Json.str "p1")]
    [some (Json.str "p2")] "f" (by decide) rfl
    (by
      intro sl hsl
      simp only [List.mem_singleton] at hsl
      rw [hsl]
      rfl)
    rfl rfl

/-! ### C10: an erroring pass keeps its partial progress -/

/-- C10 (implicit behaviour): `checkGeneration` is not atomic on error.
If a slot resolves "DONE" (with image `aimg`) and a later slot's step
raises, the call raises, yet the resolved job's image stays appended to
`ready_images`, its slot is left as a null marker, and the end-of-pass
compaction does not run, so the pending collection still contains a
null slot; the aborting slot and everything after it are untouched. -/
theorem checkGeneration_partial_on_error (svc : Service) (s : GenState)
    (hauth : s.auth = true)
    (l1 l2 l3 : List (Option Json)) (aid : String) (aimg : Json)
    (bslot : Option Json) (e : Err) (qb : List String)
    (hpend : s.pending = l1 ++ some (Json.str aid) :: (l2 ++ bslot :: l3))
    (H1 : ∀ sl ∈ l1, isAbort (checkStep svc sl) = false)
    (H2 : ∀ sl ∈ l2, isAbort (checkStep svc sl) = false)
    (ha : checkStep svc (some (Json.str aid)) = .resolve aid aimg)
    (hb : checkStep svc bslot = .abort e qb) :
    (checkGeneration svc s).1 = some e ∧
    (checkGeneration svc s).2.1.ready =
      s.ready ++ (resolvedImages svc l1 ++ aimg :: resolvedImages svc l2) ∧
    (checkGeneration svc s).2.1.pending =
      (l1.map (stepSlot svc) ++ none :: l2.map (stepSlot svc)) ++ bslot :: l3 ∧
    none ∈ (checkGeneration svc s).2.1.pending := by
  have Hpre : ∀ sl ∈ l1 ++ some (Json.str aid) :: l2,
      isAbort (checkStep svc sl) = false := by
    intro sl hsl
    rcases List.mem_append.mp hsl with h | h
    · exact H1 sl h
    · rcases List.mem_cons.mp h with h | h
      · rw [h, ha]; rfl
      · exact H2 sl h
  have habort := checkLoop_abort svc (l1 ++ some (Json.str aid) :: l2) l3 bslot
    e qb Hpre hb
  have hmap : (l1 ++ some (Json.str aid) :: l2).map (stepSlot svc) =
      l1.map (stepSlot svc) ++ none :: l2.map (stepSlot svc) := by
    have : stepSlot svc (some (Json.str aid)) = none := by
      unfold stepSlot; rw [ha]
    simp [this]
  have hri : resolvedImages svc (l1 ++ some (Json.str aid) :: l2) =
      resolvedImages svc l1 ++ aimg :: resolvedImages svc l2 := by
    unfold resolvedImages
    simp [ha]
  have hpend2 : s.pending = (l1 ++ some (Json.str aid) :: l2) ++ bslot :: l3 := by
    rw [hpend]; simp
  have hloop : checkLoop svc s.pending =
      (some e, (l1 ++ some (Json.str aid) :: l2).map (stepSlot svc) ++ bslot :: l3,
       resolvedImages svc (l1 ++ some (Json.str aid) :: l2),
       queriedOf svc (l1 ++ some (Json.str aid) :: l2) ++ qb) := by
    rw [hpend2]; exact habort
  rw [checkGeneration_eq_of_abort svc s hauth _ _ _ _ hloop]
  refine ⟨rfl, by rw [hri], by rw [hmap], ?_⟩
  rw [hmap]
  simp

/-- Concrete status service for the C10 witness: "a" is done with one
image, everything else fails. -/
def csvc10 : Service := fun id =>
  if id = "a" then
    Json.dict [("status", Json.str "DONE"),
               ("result", Json.dict [("files", Json.list [Json.str "img"])])]
  else Json.dict [("status", Json.str "FAIL")]

/-- Concrete session state for the C10 witness. -/
def cs10 : GenState :=
  ⟨true, [some (Json.str "a"), some (Json.str "b")], []⟩

/-- Witness for C10: after "a" resolves and "b" fails, the call raises,
the image of "a" is retained in `ready_images` and the pending
collection holds a null slot. -/
theorem checkGeneration_partial_on_error_witness :
    (checkGeneration csvc10 cs10).1 = some Err.imageGeneration ∧
    (checkGeneration csvc10 cs10).2.1.ready =
      cs10.ready ++ (resolvedImages csvc10 [] ++ Json.str "img" :: resolvedImages csvc10 []) ∧
    (checkGeneration csvc10 cs10).2.1.pending =
      (List.map (stepSlot csvc10) [] ++ none :: List.map (stepSlot csvc10) []) ++
        some (Json.str "b") :: [] ∧
    none ∈ (checkGeneration csvc10 cs10).2.1.pending :=
  checkGeneration_partial_on_error csvc10 cs10 rfl [] [] [] "a" (Json.str "img")
    (some (Json.str "b")) Err.imageGeneration ["b"] rfl
    (by intro sl hsl; exact absurd hsl (List.not_mem_nil sl))
    (by intro sl hsl; exact absurd hsl (List.not_mem_nil sl))
    rfl rfl

/-! ### C5: state invariants of poll and collect -/

/-- `startGeneration` never touches `ready_images`. -/
theorem startGeneration_ready_eq (w : StartWorld) (prompt style : String)
    (s : GenState) : (startGeneration w prompt style s).2.1.ready = s.ready := by
  unfold startGeneration
  repeat' split
  all_goals rfl

/-- C5: after a `checkGeneration` call that returns normally the pending
collection holds no resolved (null) slot; `checkGeneration` only ever
appends to `ready_images`, `startGeneration` leaves it unchanged, and
`getPhotos` returns the current `ready_images`, leaves it empty and
never fails. -/
theorem poll_collect_invariants (svc : Service) (w : StartWorld)
    (prompt style : String) (s : GenState)
    (hnorm : (checkGeneration svc s).1 = none) :
    (∀ sl ∈ (checkGeneration svc s).2.1.pending, sl ≠ none) ∧
    (∃ new, (checkGeneration svc s).2.1.ready = s.ready ++ new) ∧
    (startGeneration w prompt style s).2.1.ready = s.ready ∧
    getPhotos s = (s.ready, { s with ready := [] }) := by
  refine ⟨?_, ?_, startGeneration_ready_eq w prompt style s, rfl⟩
  · intro sl hsl
    unfold checkGeneration at hnorm hsl
    by_cases ha : s.auth
    · rw [if_neg (by simp [ha])] at hnorm hsl
      rcases hcl : checkLoop svc s.pending with ⟨e, p, r, q⟩
      rw [hcl] at hnorm hsl
      cases e with
      | some err => simp at hnorm
      | none =>
        simp only at hsl
        have := List.of_mem_filter hsl
        intro hn
        rw [hn] at this
        simp at this
    · rw [if_pos (by simp [ha])] at hnorm
      simp at hnorm
  · unfold checkGeneration
    by_cases ha : s.auth
    · rw [if_neg (by simp [ha])]
      rcases hcl : checkLoop svc s.pending with ⟨e, p, r, q⟩
      cases e with
      | some err => exact ⟨r, rfl⟩
      | none => exact ⟨r, rfl⟩
    · rw [if_pos (by simp [ha])]
      exact ⟨[], by simp⟩

/-- Concrete status service for the C5 witness. -/
def csvc5 : Service := fun _ =>
  Json.dict [("status", Json.str "DONE"),
             ("result", Json.dict [("files", Json.list [Json.str "w5"])])]

/-- Concrete session state for the C5 witness. -/
def cs5 : GenState := ⟨true, [some (Json.str "a")], []⟩

/-- Concrete transport world for the C5 witness. -/
def cw5 : StartWorld :=
  ⟨Except.ok (Json.list [Json.dict [("id", Json.str "m")]]),
   Except.ok (Json.dict [("uuid", Json.str "u")])⟩

/-- Witness for C5 at a one-job state that resolves. -/
theorem poll_collect_invariants_witness :
    (∀ sl ∈ (checkGeneration csvc5 cs5).2.1.pending, sl ≠ none) ∧
    (∃ new, (checkGeneration csvc5 cs5).2.1.ready = cs5.ready ++ new) ∧
    (startGeneration cw5 "fox" "basic" cs5).2.1.ready = cs5.ready ∧
    getPhotos cs5 = (cs5.ready, { cs5 with ready := [] }) :=
  poll_collect_invariants csvc5 cw5 "fox" "basic" cs5 rfl

/-! ### C8: budgeted polling against a never-resolving service -/

/-- Mapping a function that fixes every element of a list is the
identity on it. -/
theorem map_eq_self_of_eq {α : Type} (f : α → α) :
    ∀ l : List α, (∀ a ∈ l, f a = a) → l.map f = l
  | [], _ => rfl
  | a :: l, H => by
    rw [List.map_cons, H a (by simp),
      map_eq_self_of_eq f l (fun b hb => H b (by simp [hb]))]

/-- A slot holding an identifier whose status query answers a
pending-class status is skipped (empty identifier) or kept. -/
theorem checkStep_pending_slot (svc : Service) (id : String)
    (h : pendingClassB (svc id) = true) :
    checkStep svc (some (Json.str id)) =
      (if id = "" then StepOutcome.skip else StepOutcome.keep id) := by
  by_cases hid : id = ""
  · subst hid
    simp [checkStep, Json.falsy]
  · rw [if_neg hid]
    exact checkStep_keep svc id hid h

/-- Against a service that reports every job as pending-class,
`checkGeneration` returns normally and changes nothing in the state. -/
theorem checkGeneration_all_processing (svc : Service) (s : GenState)
    (hauth : s.auth = true)
    (Hsvc : ∀ id, pendingClassB (svc id) = true)
    (Hslots : ∀ sl ∈ s.pending, ∃ id, sl = some (Json.str id)) :
    checkGeneration svc s = (none, s, queriedOf svc s.pending) := by
  have hstep : ∀ sl ∈ s.pending, stepSlot svc sl = sl ∧
      (match checkStep svc sl with
       | StepOutcome.resolve _ img => some img
       | _ => none) = (none : Option Json) := by
    intro sl hsl
    obtain ⟨id, rfl⟩ := Hslots sl hsl
    have hce := checkStep_pending_slot svc id (Hsvc id)
    unfold stepSlot
    rw [hce]
    by_cases hid : id = "" <;> simp [hid]
  have Hna : ∀ sl ∈ s.pending, isAbort (checkStep svc sl) = false := by
    intro sl hsl
    obtain ⟨id, rfl⟩ := Hslots sl hsl
    rw [checkStep_pending_slot svc id (Hsvc id)]
    by_cases hid : id = "" <;> simp [hid, isAbort]
  have hclean := checkLoop_clean svc s.pending Hna
  have hmap : s.pending.map (stepSlot svc) = s.pending :=
    map_eq_self_of_eq _ _ (fun a ha => (hstep a ha).1)
  have hres : resolvedImages svc s.pending = [] := by
    unfold resolvedImages
    rw [List.filterMap_eq_nil_iff]
    exact fun a ha => (hstep a ha).2
  have hfil : s.pending.filter (fun x => x.isSome) = s.pending := by
    rw [List.filter_eq_self]
    intro a ha
    obtain ⟨id, rfl⟩ := Hslots a ha
    rfl
  rw [checkGeneration_eq_of_clean svc s hauth _ _ _ hclean, hmap, hfil, hres,
    List.append_nil]

/-- Against a service that reports every job as pending-class, the
polling loop runs through its whole budget: every attempt checks,
sleeps 4 seconds and emits one progress message, and the loop ends in
the timeout outcome. -/
theorem pollLoop_never_resolves (svc : Service)
    (Hsvc : ∀ id, pendingClassB (svc id) = true)
    (fuel : Nat) (s : GenState) (hauth : s.auth = true) (hready : s.ready = [])
    (Hslots : ∀ sl ∈ s.pending, ∃ id, sl = some (Json.str id)) :
    (pollLoop svc fuel s).1 =
      ⟨PollOutcome.timeout, fuel, List.replicate fuel 4, fuel⟩ := by
  induction fuel with
  | zero => rfl
  | succ n ih =>
    have hs : { s with ready := ([] : List Json) } = s := by
      cases s
      simp only at hready
      rw [hready]
    unfold pollLoop
    rw [checkGeneration_all_processing svc s hauth Hsvc Hslots]
    simp only [getPhotos, hready, List.isEmpty_nil, if_true, hs]
    rcases hrec : pollLoop svc n s with ⟨t, s3⟩
    rw [hrec] at ih
    simp only at ih
    subst ih
    simp [List.replicate_succ]

/-- C8: a run of the polling orchestrator of `executePrompt` against a
service whose jobs never resolve performs exactly 15 (hence at most 15)
check/collect attempts, each delay between attempts is the fixed 4
seconds, the run ends in the `timeout` outcome — a normal return, not a
raised error — and fewer than 16 progress messages reach the user. -/
theorem pollLoop_timeout_bounds (svc : Service) (s : GenState)
    (hauth : s.auth = true) (hready : s.ready = [])
    (Hsvc : ∀ id, pendingClassB (svc id) = true)
    (Hslots : ∀ sl ∈ s.pending, ∃ id, sl = some (Json.str id)) :
    (pollLoop svc 15 s).1.outcome = PollOutcome.timeout ∧
    (pollLoop svc 15 s).1.checks ≤ 15 ∧
    (pollLoop svc 15 s).1.sleeps = List.replicate 15 4 ∧
    (pollLoop svc 15 s).1.progress < 16 := by
  rw [pollLoop_never_resolves svc Hsvc 15 s hauth hready Hslots]
  exact ⟨rfl, by norm_num, rfl, by norm_num⟩

/-- Concrete never-resolving service for the C8 witness. -/
def csvc8 : Service := fun _ => Json.dict [("status", Json.str "PROCESSING")]

/-- Concrete session state for the C8 witness. -/
def cs8 : GenState := ⟨true, [some (Json.str "j")], []⟩

/-- Witness for C8 at a one-job state that never resolves. -/
theorem pollLoop_timeout_bounds_witness :
    (pollLoop csvc8 15 cs8).1.outcome = PollOutcome.timeout ∧
    (pollLoop csvc8 15 cs8).1.checks ≤ 15 ∧
    (pollLoop csvc8 15 cs8).1.sleeps = List.replicate 15 4 ∧
    (pollLoop csvc8 15 cs8).1.progress < 16 :=
  pollLoop_timeout_bounds csvc8 cs8 rfl rfl (fun _ => rfl)
    (by
      intro sl hsl
      simp only [cs8, List.mem_singleton] at hsl
      exact ⟨"j", hsl⟩)

/-! ### C3: empty prompt or style -/

/-- Concrete transport world for the C3 theorems (never reached). -/
def cw3 : StartWorld := ⟨Except.ok Json.null, Except.ok Json.null⟩

/-- Counterexample to C3 as stated: on an *uncredentialed* session an
empty prompt makes `startGeneration` raise `IncorrectUseError` — the
credential check at line 228 runs before the parameter check at line
230 — so it does not fail with `WrongParametersError` for *every*
session. -/
theorem startGeneration_empty_uncredentialed :
    (startGeneration cw3 "" "basic" ⟨false, [], []⟩).1 = some Err.incorrectUse ∧
    some Err.incorrectUse ≠ some Err.wrongParameters :=
  ⟨rfl, by decide⟩

/-- C3 (amended): for every *credentialed* session, if the prompt or the
style is the empty string, `startGeneration` raises
`WrongParametersError`, issues no transport call, and leaves the state
unchanged. -/
theorem startGeneration_empty_params (w : StartWorld) (prompt style : String)
    (s : GenState) (hauth : s.auth = true) (h : prompt = "" ∨ style = "") :
    (startGeneration w prompt style s).1 = some Err.wrongParameters ∧
    (startGeneration w prompt style s).2.2 = [] ∧
    (startGeneration w prompt style s).2.1 = s := by
  have hb : (prompt == "" || style == "") = true := by
    rcases h with h | h <;> simp [h]
  unfold startGeneration
  rw [hauth, hb]
  exact ⟨rfl, rfl, rfl⟩

/-- Witness for the amended C3: credentialed session, empty prompt. -/
theorem startGeneration_empty_params_witness :
    (startGeneration cw3 "" "basic" ⟨true, [], []⟩).1 = some Err.wrongParameters ∧
    (startGeneration cw3 "" "basic" ⟨true, [], []⟩).2.2 = [] ∧
    (startGeneration cw3 "" "basic" ⟨true, [], []⟩).2.1 = ⟨true, [], []⟩ :=
  startGeneration_empty_params cw3 "" "basic" ⟨true, [], []⟩ rfl (Or.inl rfl)

/-! ### C4: submit, one poll reporting "DONE", collect -/

/-- C4: on a fresh credentialed session with non-empty prompt and style,
if the model resolves, the submission is accepted with a non-empty job
identifier, and the status poll answers "DONE" with exactly one image
payload, then `startGeneration` succeeds, one `checkGeneration` resolves
the job, the collect operation returns exactly that one image, and the
pending collection is empty afterwards. -/
theorem start_then_check_done (svc : Service) (w : StartWorld)
    (prompt style : String) (s : GenState)
    (hauth : s.auth = true) (hpend : s.pending = []) (hready : s.ready = [])
    (hprompt : prompt ≠ "") (hstyle : style ≠ "")
    (mid : Json) (hmodel : getModel true w.modelsResp = Except.ok mid)
    (data : Json) (hrun : w.runResp = Except.ok data)
    (hdict : data.isDict = true)
    (uid : String) (huid : uid ≠ "")
    (huuid : data.lookup "uuid" = some (Json.str uid))
    (hsdict : (svc uid).isDict = true)
    (hstat : (svc uid).lookup "status" = some (Json.str "DONE"))
    (rkvs : List (String × Json))
    (hres : (svc uid).lookup "result" = some (Json.dict rkvs))
    (img : Json)
    (hfiles : Json.lookup (Json.dict rkvs) "files" = some (Json.list [img])) :
    (startGeneration w prompt style s).1 = none ∧
    (startGeneration w prompt style s).2.1.pending = [some (Json.str uid)] ∧
    (checkGeneration svc (startGeneration w prompt style s).2.1).1 = none ∧
    (checkGeneration svc (startGeneration w prompt style s).2.1).2.1.pending = [] ∧
    (getPhotos (checkGeneration svc (startGeneration w prompt style s).2.1).2.1).1 =
      [img] ∧
    (getPhotos (checkGeneration svc (startGeneration w prompt style s).2.1).2.1).2.ready =
      [] := by
  have hps : (prompt == "" || style == "") = false := by
    simp [hprompt, hstyle]
  have hfalsy : (Json.str uid).falsy = false := by simp [Json.falsy, huid]
  have hstart : startGeneration w prompt style s =
      (none, { s with pending := s.pending ++ [some (Json.str uid)] },
       [NetCall.getPipelines, NetCall.postRun]) := by
    simp only [startGeneration, hauth, hps, hmodel, hrun, hdict, huuid, hfalsy,
      Bool.not_true, Bool.false_eq_true, if_false]
  have hne : rkvs.isEmpty = false := lookup_dict_ne_nil hfiles
  have hstep : checkStep svc (some (Json.str uid)) = .resolve uid img := by
    simp [checkStep, hfalsy, hsdict, hstat, falsyOpt, Json.falsy, jeqStrOpt,
      jeqStr, hres, hne, hfiles, huid]
  have hloop : checkLoop svc [some (Json.str uid)] = (none, [none], [img], [uid]) := by
    simp [checkLoop, hstep, consOut]
  have hs1pend : (startGeneration w prompt style s).2.1.pending =
      [some (Json.str uid)] := by
    rw [hstart]
    simp [hpend]
  have hs1auth : (startGeneration w prompt style s).2.1.auth = true := by
    rw [hstart]
    exact hauth
  have hs1ready : (startGeneration w prompt style s).2.1.ready = [] := by
    rw [hstart]
    exact hready
  have hcheck := checkGeneration_eq_of_clean svc
    (startGeneration w prompt style s).2.1 hs1auth _ _ _
    (by rw [hs1pend]; exact hloop)
  refine ⟨by rw [hstart], hs1pend, by rw [hcheck], by rw [hcheck]; rfl, ?_,
    by rw [hcheck]; rfl⟩
  rw [hcheck]
  simp [getPhotos, hs1ready]

/-- Concrete status service for the C4 witness: job "abc" is done with
the single payload "QmFzZTY0". -/
def csvc4 : Service := fun _ =>
  Json.dict [("status", Json.str "DONE"),
             ("result", Json.dict [("files", Json.list [Json.str "QmFzZTY0"])])]

/-- Concrete transport world for the C4 witness: one model "m", the
submission is accepted with uuid "abc". -/
def cw4 : StartWorld :=
  ⟨Except.ok (Json.list [Json.dict [("id", Json.str "m")]]),
   Except.ok (Json.dict [("uuid", Json.str "abc")])⟩

/-- Witness for C4: prompt "a red fox", style "basic", job "abc",
payload "QmFzZTY0". -/
theorem start_then_check_done_witness :
    (startGeneration cw4 "a red fox" "basic" ⟨true, [], []⟩).1 = none ∧
    (startGeneration cw4 "a red fox" "basic" ⟨true, [], []⟩).2.1.pending =
      [some (Json.str "abc")] ∧
    (checkGeneration csvc4 (startGeneration cw4 "a red fox" "basic" ⟨true, [], []⟩).2.1).1 =
      none ∧
    (checkGeneration csvc4
      (startGeneration cw4 "a red fox" "basic" ⟨true, [], []⟩).2.1).2.1.pending = [] ∧
    (getPhotos (checkGeneration csvc4
      (startGeneration cw4 "a red fox" "basic" ⟨true, [], []⟩).2.1).2.1).1 =
      [Json.str "QmFzZTY0"] ∧
    (getPhotos (checkGeneration csvc4
      (startGeneration cw4 "a red fox" "basic" ⟨true, [], []⟩).2.1).2.1).2.ready = [] :=
  start_then_check_done csvc4 cw4 "a red fox" "basic" ⟨true, [], []⟩ rfl rfl rfl
    (by decide) (by decide) (Json.str "m") rfl (Json.dict [("uuid", Json.str "abc")])
    rfl rfl "abc" (by decide) rfl rfl rfl
    [("files", Json.list [Json.str "QmFzZTY0"])] rfl (Json.str "QmFzZTY0") rfl

/-! ### C6: transport-layer error classification -/

/-- C6: one `_handleRequest` call fails with `FailedRequestError`
exactly when the response status differs from the required status, the
transport itself errors, or the body cannot be parsed; every other
exception — including a failure creating the client session — surfaces
as the distinct generic `APIError`; and the layer issues at most one
request (it never retries). -/
theorem handleRequest_classification (required : Nat) (ev : TransportEvent) :
    ((handleRequest required ev).1 = Except.error Err.failedRequest ↔
      (ev = .clientError ∨
        ∃ st body, ev = .response st body ∧ (st ≠ required ∨ body = none))) ∧
    ((handleRequest required ev).1 = Except.error Err.apiError ↔
      (ev = .sessionFail ∨ ev = .otherError)) ∧
    Err.apiError ≠ Err.failedRequest ∧
    (handleRequest required ev).2 ≤ 1 := by
  refine ⟨?_, ?_, by decide, ?_⟩
  · cases ev with
    | sessionFail => simp [handleRequest]
    | clientError => simp [handleRequest]
    | otherError => simp [handleRequest]
    | response st body =>
      by_cases hst : st = required
      · subst hst
        cases body with
        | none =>
          simp [handleRequest]
          exact ⟨st, none, ⟨rfl, rfl⟩, Or.inr rfl⟩
        | some j => simp [handleRequest]
      · have hb : (st != required) = true := by simp [hst]
        simp only [handleRequest, hb, if_true]
        constructor
        · intro _
          exact Or.inr ⟨st, body, rfl, Or.inl hst⟩
        · intro _
          trivial
  · cases ev with
    | sessionFail => simp [handleRequest]
    | clientError => simp [handleRequest]
    | otherError => simp [handleRequest]
    | response st body =>
      by_cases hst : st = required
      · subst hst
        cases body with
        | none => simp [handleRequest]
        | some j => simp [handleRequest]
      · have : (st != required) = true := by simp [hst]
        simp [handleRequest, this]
  · cases ev with
    | sessionFail => simp [handleRequest]
    | clientError => simp [handleRequest]
    | otherError => simp [handleRequest]
    | response st body =>
      simp only [handleRequest]
      split
      · simp
      · cases body <;> simp

/-- Witness for C6 at a concrete transport error. -/
theorem handleRequest_classification_witness :
    (handleRequest 200 TransportEvent.clientError).1 =
      Except.error Err.failedRequest ∧
    (handleRequest 200 TransportEvent.clientError).2 ≤ 1 :=
  ⟨((handleRequest_classification 200 TransportEvent.clientError).1).mpr (Or.inl rfl),
   (handleRequest_classification 200 TransportEvent.clientError).2.2.2⟩

/-! ### C7: transport-session ownership and release -/

/-- Invariant maintained between construction and scope exit: the
external handle lies outside the client's numbering and is never among
its creations; every created handle is closed or is the current
session; a false `session_closing` means nothing was ever created; a
true one means the current session is a created handle; and the client
closes nothing before `__aexit__`. -/
def SessInv (ext : Option Nat) (w : SessWorld) : Prop :=
  (∀ e, ext = some e → e < w.fresh ∧ e ∉ w.created) ∧
  (∀ h ∈ w.created, h < w.fresh) ∧
  (∀ h ∈ w.created, h ∈ w.closed ∨ w.sessionId = some h) ∧
  (w.sessionClosing = false → w.created = []) ∧
  (w.sessionClosing = true → ∃ h, w.sessionId = some h ∧ h ∈ w.created) ∧
  w.clientClosed = []

theorem sessInv_init (ext : Option Nat) : SessInv ext (initClient ext) := by
  refine ⟨?_, ?_, ?_, ?_, ?_, rfl⟩
  · intro e he
    constructor
    · simp [initClient, he]
    · simp [initClient]
  · intro h hh
    simp [initClient] at hh
  · intro h hh
    simp [initClient] at hh
  · intro _
    rfl
  · intro hcl
    simp [initClient] at hcl

theorem sessInv_mkNew (ext : Option Nat) (w : SessWorld) (hinv : SessInv ext w)
    (hcond : w.sessionId = none ∨ ∃ h0, w.sessionId = some h0 ∧ h0 ∈ w.closed) :
    SessInv ext (mkNew w) := by
  obtain ⟨h1, h2, h3, h4, h5, h6⟩ := hinv
  refine ⟨?_, ?_, ?_, ?_, ?_, h6⟩
  · intro e he
    obtain ⟨hlt, hmem⟩ := h1 e he
    refine ⟨Nat.lt_succ_of_lt hlt, ?_⟩
    intro hx
    rcases List.mem_append.mp hx with hx | hx
    · exact hmem hx
    · rw [List.mem_singleton.mp hx] at hlt
      exact Nat.lt_irrefl _ hlt
  · intro h hh
    rcases List.mem_append.mp hh with hh | hh
    · exact Nat.lt_succ_of_lt (h2 h hh)
    · rw [List.mem_singleton.mp hh]
      exact Nat.lt_succ_self _
  · intro h hh
    rcases List.mem_append.mp hh with hh | hh
    · rcases h3 h hh with hc | hc
      · exact Or.inl hc
      · rcases hcond with hn | ⟨h0, hs0, hc0⟩
        · rw [hn] at hc
          cases hc
        · rw [hs0] at hc
          injection hc with hh0
          rw [hh0] at hc0
          exact Or.inl hc0
    · rw [List.mem_singleton.mp hh]
      exact Or.inr rfl
  · intro hcl
    simp [mkNew] at hcl
  · intro _
    exact ⟨w.fresh, rfl, List.mem_append.mpr (Or.inr (List.mem_singleton.mpr rfl))⟩

theorem stepOp_getSession_none (w : SessWorld) (hs : w.sessionId = none) :
    stepOp w .getSession = mkNew w := by
  simp only [stepOp, hs]

theorem stepOp_getSession_closed (w : SessWorld) (h : Nat)
    (hs : w.sessionId = some h) (hc : h ∈ w.closed) :
    stepOp w .getSession = mkNew w := by
  simp only [stepOp, hs]
  rw [if_pos hc]

theorem stepOp_getSession_open (w : SessWorld) (h : Nat)
    (hs : w.sessionId = some h) (hc : h ∉ w.closed) :
    stepOp w .getSession = w := by
  simp only [stepOp, hs]
  rw [if_neg hc]

theorem stepOp_externalClose_some (w : SessWorld) (h : Nat)
    (hs : w.sessionId = some h) :
    stepOp w .externalClose = { w with closed := h :: w.closed } := by
  simp only [stepOp, hs]

theorem stepOp_externalClose_none (w : SessWorld) (hs : w.sessionId = none) :
    stepOp w .externalClose = w := by
  simp only [stepOp, hs]

theorem sessInv_step (ext : Option Nat) (w : SessWorld) (op : SessOp)
    (hinv : SessInv ext w) : SessInv ext (stepOp w op) := by
  cases op with
  | getSession =>
    cases hs : w.sessionId with
    | none =>
      rw [stepOp_getSession_none w hs]
      exact sessInv_mkNew ext w hinv (Or.inl hs)
    | some h =>
      by_cases hc : h ∈ w.closed
      · rw [stepOp_getSession_closed w h hs hc]
        exact sessInv_mkNew ext w hinv (Or.inr ⟨h, hs, hc⟩)
      · rw [stepOp_getSession_open w h hs hc]
        exact hinv
  | getSessionFail => exact hinv
  | externalClose =>
    cases hs : w.sessionId with
    | none =>
      rw [stepOp_externalClose_none w hs]
      exact hinv
    | some h =>
      rw [stepOp_externalClose_some w h hs]
      obtain ⟨h1, h2, h3, h4, h5, h6⟩ := hinv
      refine ⟨h1, h2, ?_, h4, h5, h6⟩
      intro x hx
      rcases h3 x hx with hcx | hcx
      · exact Or.inl (List.mem_cons_of_mem _ hcx)
      · exact Or.inr hcx

theorem sessInv_runOps (ext : Option Nat) (ops : List SessOp) (w : SessWorld)
    (hinv : SessInv ext w) : SessInv ext (runOps ops w) := by
  induction ops generalizing w with
  | nil => exact hinv
  | cons op ops ih => exact ih (stepOp w op) (sessInv_step ext w op hinv)

theorem aexit_not_closing (w : SessWorld) (errExit : Bool)
    (hc : w.sessionClosing = false) : aexit w errExit = w := by
  simp only [aexit, hc]
  rfl

theorem aexit_already_closed (w : SessWorld) (errExit : Bool) (h0 : Nat)
    (hc : w.sessionClosing = true) (hs : w.sessionId = some h0)
    (hcl : h0 ∈ w.closed) : aexit w errExit = w := by
  simp only [aexit, hc, hs, if_true]
  rw [if_pos hcl]

theorem aexit_closes (w : SessWorld) (errExit : Bool) (h0 : Nat)
    (hc : w.sessionClosing = true) (hs : w.sessionId = some h0)
    (hcl : h0 ∉ w.closed) :
    aexit w errExit =
      { w with closed := h0 :: w.closed, clientClosed := h0 :: w.clientClosed } := by
  simp only [aexit, hc, hs, if_true]
  rw [if_neg hcl]

/-- C7: over any sequence of session-lifecycle events and any way the
scope exits (normally or with a propagated error), the client never
closes an externally supplied transport handle, and every handle it
created lazily reports closed once `__aexit__` has run. -/
theorem session_scope_release (ext : Option Nat) (ops : List SessOp)
    (errExit : Bool) :
    (∀ e, ext = some e →
      e ∉ (aexit (runOps ops (initClient ext)) errExit).clientClosed) ∧
    (∀ h ∈ (aexit (runOps ops (initClient ext)) errExit).created,
      h ∈ (aexit (runOps ops (initClient ext)) errExit).closed) := by
  obtain ⟨h1, h2, h3, h4, h5, h6⟩ :=
    sessInv_runOps ext ops (initClient ext) (sessInv_init ext)
  set w := runOps ops (initClient ext) with hw
  by_cases hc : w.sessionClosing
  · obtain ⟨h0, hs0, hcr0⟩ := h5 hc
    by_cases hcl : h0 ∈ w.closed
    · rw [aexit_already_closed w errExit h0 hc hs0 hcl]
      refine ⟨?_, ?_⟩
      · intro e he
        rw [h6]
        exact List.not_mem_nil e
      · intro h hh
        rcases h3 h hh with hx | hx
        · exact hx
        · rw [hs0] at hx
          injection hx with hx
          rw [← hx]
          exact hcl
    · rw [aexit_closes w errExit h0 hc hs0 hcl]
      refine ⟨?_, ?_⟩
      · intro e he hmem
        rcases List.mem_cons.mp hmem with he0 | hmem2
        · rw [he0] at he
          exact (h1 h0 he).2 hcr0
        · rw [h6] at hmem2
          exact List.not_mem_nil e hmem2
      · intro h hh
        rcases h3 h hh with hx | hx
        · exact List.mem_cons_of_mem _ hx
        · rw [hs0] at hx
          injection hx with hx
          rw [← hx]
          exact List.mem_cons_self _ _
  · have hcf : w.sessionClosing = false := by
      cases hb : w.sessionClosing
      · rfl
      · exact absurd hb hc
    rw [aexit_not_closing w errExit hcf]
    refine ⟨?_, ?_⟩
    · intro e he
      rw [h6]
      exact List.not_mem_nil e
    · intro h hh
      rw [h4 hcf] at hh
      cases hh

/-- Witness for C7: externally supplied handle 7, closed from outside,
then a lazy creation, exit via a propagated error: the client never
closes handle 7. -/
theorem session_scope_release_witness :
    7 ∉ (aexit (runOps [SessOp.externalClose, SessOp.getSession]
          (initClient (some 7))) true).clientClosed :=
  (session_scope_release (some 7) [SessOp.externalClose, SessOp.getSession]
    true).1 7 rfl

/-! ### C9: style resolution -/

theorem find_first {α : Type} (p : α → Bool) (x : α) :
    ∀ l1 l2 : List α, (∀ a ∈ l1, p a = false) → p x = true →
      (l1 ++ x :: l2).find? p = some x
  | [], l2, _, hx => by
    rw [List.nil_append, List.find?_cons_of_pos _ hx]
  | a :: l1, l2, H, hx => by
    rw [List.cons_append, List.find?_cons_of_neg _ (by simp [H a (by simp)])]
    exact find_first p x l1 l2 (fun b hb => H b (by simp [hb])) hx

/-- C9: `getStyleByTitle` is deterministic and idempotent against a
fixed catalog response; title matching is Python `==` against the
entry's title, i.e. exact, case-sensitive string equality; the first
matching entry wins; and when no entry's title equals the given title
the call raises `WrongParametersError`. -/
theorem getStyleByTitle_first_match (resp : Except Err Json) (title : String) :
    getStyleByTitle resp title = getStyleByTitle resp title ∧
    (∀ j : Json, jeqStr j title = true ↔ j = Json.str title) ∧
    (∀ l1 l2 : List (Json × Json), ∀ t d : Json,
      getStyles resp = Except.ok (l1 ++ (t, d) :: l2) →
      jeqStr t title = true →
      (∀ p ∈ l1, jeqStr p.1 title = false) →
      getStyleByTitle resp title = Except.ok d) ∧
    (∀ entries : List (Json × Json),
      getStyles resp = Except.ok entries →
      (∀ p ∈ entries, jeqStr p.1 title = false) →
      getStyleByTitle resp title = Except.error Err.wrongParameters) := by
  refine ⟨rfl, ?_, ?_, ?_⟩
  · intro j
    cases j <;> simp [jeqStr]
  · intro l1 l2 t d hok hmatch hnomatch
    simp only [getStyleByTitle, hok]
    rw [find_first (fun p => jeqStr p.1 title) (t, d) l1 l2 hnomatch hmatch]
  · intro entries hok hnone
    simp only [getStyleByTitle, hok]
    rw [List.find?_eq_none.mpr (fun x hx => by simp [hnone x hx])]

/-- Concrete styles response for the C9 witness: well-formed catalog
with a duplicate title "A". -/
def cresp9 : Except Err Json :=
  Except.ok (Json.list
    [Json.dict [("titleEn", Json.str "B"), ("name", Json.str "b")],
     Json.dict [("titleEn", Json.str "A"), ("name", Json.str "a1")],
     Json.dict [("titleEn", Json.str "A"), ("name", Json.str "a2")]])

/-- Witness for C9: with two entries titled "A", the first one's
display name is returned. -/
theorem getStyleByTitle_first_match_witness :
    getStyleByTitle cresp9 "A" = Except.ok (Json.str "a1") :=
  (getStyleByTitle_first_match cresp9 "A").2.2.1
    [(Json.str "B", Json.str "b")]
    [(Json.str "A", Json.str "a2")]
    (Json.str "A") (Json.str "a1")
    rfl rfl
    (by
      intro p hp
      simp only [List.mem_singleton] at hp
      rw [hp]
      rfl)
